import Mathlib

/-!
Verification of the desktop-waifu overlay core: the drag / position / quadrant
state machine of `desktop-waifu-overlay/src/main.rs`, the hotkey-gated IPC
command loop, and the per-platform `set_input_region` backends of
`src-tauri/src/overlay/{x11,macos}.rs`, as a shallow embedding of the Rust
source into Lean.
-/

namespace DesktopWaifu

/-- `WINDOW_WIDTH_COLLAPSED` constant from `main.rs`. -/
def WINDOW_WIDTH_COLLAPSED : Int := 160

/-- `WINDOW_HEIGHT_COLLAPSED` constant from `main.rs`. -/
def WINDOW_HEIGHT_COLLAPSED : Int := 380

/-- `CharacterPosition` from `main.rs`: absolute screen coordinates of the
character's top-left corner (the window itself is fullscreen). -/
structure CharacterPosition where
  x : Int
  y : Int
deriving DecidableEq, Repr

/-- `Default for CharacterPosition` from `main.rs`: bottom-right area of a
1920x1080 screen. -/
def CharacterPosition.default : CharacterPosition :=
  { x := 1920 - WINDOW_WIDTH_COLLAPSED - 20
  , y := 1080 - WINDOW_HEIGHT_COLLAPSED - 20 }

/-- `Quadrant` from `main.rs`. -/
structure Quadrant where
  is_right_half : Bool
  is_bottom_half : Bool
deriving DecidableEq, Repr

/-- `DragState` from `main.rs`. -/
structure DragState where
  start_x : Int
  start_y : Int
  is_dragging : Bool
deriving DecidableEq, Repr

/-- Events dispatched to the renderer via `evaluate_javascript` in the
`moveWindow` / `getQuadrant` handlers of `main.rs`. -/
inductive OverlayEvent where
  | characterMove (x y : Int)
  | quadrantChange (isRightHalf isBottomHalf : Bool)
  | initialState (x y : Int) (isRightHalf isBottomHalf : Bool)
      (screenWidth screenHeight : Int)
deriving DecidableEq, Repr

/-- The mutable state owned by the GTK main loop in `build_ui`:
`position`, `drag_state` and `quadrant` (each an `Rc<RefCell<_>>`). -/
structure OverlayState where
  position : CharacterPosition
  drag : DragState
  quadrant : Quadrant
deriving DecidableEq, Repr

/-- Initial state built in `build_ui`: default position, `DragState::default()`
(not dragging), quadrant initially bottom-right. -/
def initialOverlayState : OverlayState :=
  { position := CharacterPosition.default
  , drag := { start_x := 0, start_y := 0, is_dragging := false }
  , quadrant := { is_right_half := true, is_bottom_half := true } }

/-- `moveWindow` handler, `"startDrag"` arm: save current position as drag
start and mark dragging. -/
def handleStartDrag (s : OverlayState) : OverlayState :=
  { s with drag :=
      { start_x := s.position.x, start_y := s.position.y, is_dragging := true } }

/-- `moveWindow` handler, `"drag"` arm: early-return when not dragging,
otherwise store `start + offset` (no clamping) and emit `characterMove`. -/
def handleDrag (s : OverlayState) (offsetX offsetY : Int) :
    OverlayState × List OverlayEvent :=
  if s.drag.is_dragging = false then (s, [])
  else
    let new_x := s.drag.start_x + offsetX
    let new_y := s.drag.start_y + offsetY
    ({ s with position := { x := new_x, y := new_y } },
     [OverlayEvent.characterMove new_x new_y])

/-- The quadrant computation inlined in the `"endDrag"` arm and the
`getQuadrant` handler of `main.rs`: character center compared against the
screen midpoint (plain threshold, integer division truncating toward zero as
in Rust `i32` division). -/
def classifyQuadrant (pos : CharacterPosition) (screen_width screen_height : Int) :
    Quadrant :=
  { is_right_half :=
      decide (pos.x + Int.tdiv WINDOW_WIDTH_COLLAPSED 2 ≥ Int.tdiv screen_width 2)
  , is_bottom_half :=
      decide (pos.y + Int.tdiv WINDOW_HEIGHT_COLLAPSED 2 ≥ Int.tdiv screen_height 2) }

/-- `moveWindow` handler, `"endDrag"` arm: clear the dragging flag; then, only
if `get_screen_dimensions` returned geometry, recompute the quadrant and, only
when it differs from the stored one, store it and emit `quadrantChange`.
`geom` models the `Option` result of `get_screen_dimensions`. -/
def handleEndDrag (s : OverlayState) (geom : Option (Int × Int)) :
    OverlayState × List OverlayEvent :=
  let s1 := { s with drag := { s.drag with is_dragging := false } }
  match geom with
  | none => (s1, [])
  | some (screen_width, screen_height) =>
    let nq := classifyQuadrant s1.position screen_width screen_height
    if nq = s1.quadrant then (s1, [])
    else
      ({ s1 with quadrant := nq },
       [OverlayEvent.quadrantChange nq.is_right_half nq.is_bottom_half])

/-- `getQuadrant` handler of `main.rs`: when geometry is available, recompute
the quadrant from the absolute position, store it, and emit `initialState`;
when `get_screen_dimensions` returns `None`, do nothing. -/
def handleGetQuadrant (s : OverlayState) (geom : Option (Int × Int)) :
    OverlayState × List OverlayEvent :=
  match geom with
  | none => (s, [])
  | some (screen_width, screen_height) =>
    let nq := classifyQuadrant s.position screen_width screen_height
    ({ s with quadrant := nq },
     [OverlayEvent.initialState s.position.x s.position.y
        nq.is_right_half nq.is_bottom_half screen_width screen_height])

/-- Side effects performed by the IPC command poll loop in `build_ui`:
presenting the window, dispatching a JS custom event to the renderer, and
updating the tray icon. -/
inductive IpcAction where
  | presentWindow
  | dispatchJs (eventName : String)
  | updateTray (visible : Bool)
deriving DecidableEq, Repr

/-- Startup value of the `hotkey_enabled` flag in `build_ui`
(`Rc::new(RefCell::new(false))`). -/
def initialHotkeyEnabled : Bool := false

/-- One iteration of the IPC command poll loop in `build_ui` on a single
socket command: commands are dropped while `hotkey_enabled` is false;
otherwise `toggle` / `show` / `hide` act on `is_visible` as in the source
(`hasTray` models whether `spawn_tray` succeeded, i.e. the tray handle is
`Some`). Returns the new `is_visible` flag and the actions performed. -/
def processIpcCommand (hotkeyEnabled hasTray : Bool) (cmd : String)
    (isVisible : Bool) : Bool × List IpcAction :=
  if hotkeyEnabled = false then (isVisible, [])
  else
    match cmd with
    | "toggle" =>
      if isVisible then (isVisible, [IpcAction.dispatchJs "hotkeyHide"])
      else
        (true, [IpcAction.presentWindow, IpcAction.dispatchJs "hotkeyShow"]
            ++ (if hasTray then [IpcAction.updateTray true] else []))
    | "show" =>
      if isVisible then (isVisible, [])
      else
        (true, [IpcAction.presentWindow, IpcAction.dispatchJs "hotkeyShow"]
            ++ (if hasTray then [IpcAction.updateTray true] else []))
    | "hide" =>
      if isVisible then (isVisible, [IpcAction.dispatchJs "hotkeyHide"])
      else (isVisible, [])
    | _ => (isVisible, [])

/-- Input-related state of a macOS `NSWindow` as driven by
`src-tauri/src/overlay/macos.rs`: `setIgnoresMouseEvents` plus the (never
installed) partial input region. -/
structure MacWindowState where
  ignores_mouse_events : Bool
  input_region : Option (Int × Int × Int × Int)
deriving DecidableEq, Repr

/-- `macos.rs::set_input_region`: macOS has no partial input regions, so this
is a no-op returning `Ok(())`. -/
def macos_set_input_region (w : MacWindowState) (_x _y _width _height : Int) :
    Except String MacWindowState :=
  Except.ok w

/-- A macOS window accepts input over its whole area: mouse events are not
ignored and no partial input region is installed. -/
def MacWindowState.acceptsWholeWindow (w : MacWindowState) : Prop :=
  w.ignores_mouse_events = false ∧ w.input_region = none

/-- Input-related state of an X11 window as driven by
`src-tauri/src/overlay/x11.rs`: Tauri's `set_ignore_cursor_events` flag plus
the XShape input region, which the stubbed implementation never installs. -/
structure X11WindowState where
  ignore_cursor_events : Bool
  input_region : Option (Int × Int × Int × Int)
deriving DecidableEq, Repr

/-- `x11.rs::set_input_region`: the XShape path is stubbed out; the function
only calls `set_ignore_cursor_events(false)` (ensure the window accepts
input) and returns `Ok(())`. The rectangle arguments are ignored. -/
def x11_set_input_region (w : X11WindowState) (_x _y _width _height : Int) :
    Except String X11WindowState :=
  Except.ok { w with ignore_cursor_events := false }

/-- An X11 window accepts input over its whole area: cursor events are not
ignored and no XShape input region is installed. -/
def X11WindowState.acceptsWholeWindow (w : X11WindowState) : Prop :=
  w.ignore_cursor_events = false ∧ w.input_region = none

/-- Modelled from the spec: `WindowPlacement` (spec section 3) — margins from
one of two anchored edges per axis.  No margin/anchor placement code exists in
the source tree: the shipped overlay uses a fullscreen layer-shell window and
positions the character by absolute coordinates instead. -/
structure WindowPlacement where
  margin_horizontal : Int
  margin_vertical : Int
  anchored_right : Bool
  anchored_bottom : Bool
deriving DecidableEq, Repr

/-- Modelled from the spec: `rebase` (spec section 4.1) — when an anchor axis
flips, the new margin on that axis is `screen - margin_old - window`, clamped
to be nonnegative; an axis whose anchor is unchanged keeps its margin. -/
def rebase (p : WindowPlacement) (new_anchored_right new_anchored_bottom : Bool)
    (screen_w screen_h window_w window_h : Int) : WindowPlacement :=
  { margin_horizontal :=
      if new_anchored_right = p.anchored_right then p.margin_horizontal
      else max 0 (screen_w - p.margin_horizontal - window_w)
  , margin_vertical :=
      if new_anchored_bottom = p.anchored_bottom then p.margin_vertical
      else max 0 (screen_h - p.margin_vertical - window_h)
  , anchored_right := new_anchored_right
  , anchored_bottom := new_anchored_bottom }

/-- Modelled from the spec: the coordinate (per axis) of the window's
low-coordinate edge encoded by an anchor flag and a margin (spec section 3
invariant: anchors and margins determine the top-left corner). -/
def anchoredEdgeCoord (anchoredFar : Bool) (margin window_extent screen_extent : Int) :
    Int :=
  if anchoredFar then screen_extent - margin - window_extent else margin

/-- A state that is mid-drag: `startDrag` has already been received. -/
def midDragState : OverlayState := handleStartDrag initialOverlayState

/- ## Helper lemmas -/

lemma half_collapsed_width : Int.tdiv WINDOW_WIDTH_COLLAPSED 2 = 80 := by decide

lemma half_collapsed_height : Int.tdiv WINDOW_HEIGHT_COLLAPSED 2 = 190 := by decide

/-- After an `endDrag` with geometry available, the stored quadrant equals the
fresh threshold classification of the current position, whatever it was
before. -/
lemma quadrant_after_endDrag (s : OverlayState) (sw sh : Int) :
    (handleEndDrag s (some (sw, sh))).1.quadrant
      = classifyQuadrant s.position sw sh := by
  unfold handleEndDrag
  dsimp only
  split
  · next h => exact h.symm
  · rfl

/- ## Claim theorems -/

/-- C1, counterexample: the quadrant re-evaluation on drag end has no
hysteresis band.  Concrete input: screen 1920x1080 (midpoint 960), stored
quadrant right-half, character at x = 879 so the center x is 959 — strictly
inside the claimed +-50 px band (910 < 959 < 1010).  The claim says the
right-half classification must be kept; the code flips it to left-half. -/
theorem quadrant_flips_inside_hysteresis_band :
    ((handleEndDrag
        { position := { x := 879, y := 300 }
        , drag := { start_x := 0, start_y := 0, is_dragging := false }
        , quadrant := { is_right_half := true, is_bottom_half := false } }
        (some (1920, 1080))).1.quadrant.is_right_half = false)
    ∧ ((960 : Int) - 50 < 879 + 80) ∧ ((879 : Int) + 80 < 960 + 50) := by
  decide

/-- C1 (amended): quadrant classification at drag end is a pure midpoint
threshold with no hysteresis: the new right-half (resp. bottom-half) flag is
true exactly when the character center on that axis is at or beyond the
screen midpoint, independently of the previously stored quadrant; hence any
move of the center across the midpoint flips the corresponding half. -/
theorem endDrag_classification_is_pure_threshold (s : OverlayState) (sw sh : Int) :
    ((handleEndDrag s (some (sw, sh))).1.quadrant.is_right_half = true
        ↔ Int.tdiv sw 2 ≤ s.position.x + 80)
    ∧ ((handleEndDrag s (some (sw, sh))).1.quadrant.is_bottom_half = true
        ↔ Int.tdiv sh 2 ≤ s.position.y + 190) := by
  rw [quadrant_after_endDrag]
  constructor <;>
    simp [classifyQuadrant, half_collapsed_width, half_collapsed_height, ge_iff_le]

/-- C2, counterexample: from the initial (reachable) placement, the drag
handler stores a negative coordinate: `startDrag` then `drag(-2000, 0)` moves
the stored x from 1740 to -260, with no clamping at 0. -/
theorem drag_stores_negative_coordinate :
    ((handleDrag (handleStartDrag initialOverlayState) (-2000) 0).1.position.x
        = -260)
    ∧ ((handleDrag (handleStartDrag initialOverlayState) (-2000) 0).1.position.x
        < 0) := by
  decide

/-- C2 (amended): while a drag session is active, `drag(offsetX, offsetY)`
stores exactly `origin + offset` on each axis, with no clamping; the stored
placement is an absolute position that can go negative (the code keeps no
margins at all). -/
theorem drag_applies_offset_unclamped (s : OverlayState) (ox oy : Int)
    (h : s.drag.is_dragging = true) :
    (handleDrag s ox oy).1.position
      = { x := s.drag.start_x + ox, y := s.drag.start_y + oy } := by
  simp [handleDrag, h]

/-- Witness for `drag_applies_offset_unclamped` at a concrete mid-drag
state. -/
theorem drag_applies_offset_unclamped_witness :
    midDragState.drag.is_dragging = true
    ∧ (handleDrag midDragState (-2000) 0).1.position
        = { x := midDragState.drag.start_x + (-2000)
          , y := midDragState.drag.start_y + 0 } :=
  ⟨by decide, drag_applies_offset_unclamped midDragState (-2000) 0 (by decide)⟩

/-- C4, counterexample: the sequence `startDrag -> drag(10, 0) -> drag(0, 0)`
does not leave the placement of a single `drag(10, 0)`: each drag applies its
offset absolutely from the saved origin, so the trailing `drag(0, 0)` restores
the origin position (1740, 680) instead of (1750, 680). -/
theorem drag_zero_resets_to_origin :
    (handleDrag (handleDrag (handleStartDrag initialOverlayState) 10 0).1 0 0).1.position
      ≠ (handleDrag (handleStartDrag initialOverlayState) 10 0).1.position := by
  decide

/-- C4 (amended): each drag tick applies its offset absolutely from the origin
saved at `startDrag`, so re-sending the same final offset is idempotent
(`startDrag -> drag(dx, dy) -> drag(dx, dy)` equals a single `drag(dx, dy)`),
while a trailing `drag(0, 0)` restores the origin position instead. -/
theorem drag_final_application_idempotent (s : OverlayState) (dx dy : Int) :
    (handleDrag (handleDrag (handleStartDrag s) dx dy).1 dx dy).1.position
        = (handleDrag (handleStartDrag s) dx dy).1.position
    ∧ (handleDrag (handleDrag (handleStartDrag s) dx dy).1 0 0).1.position
        = (handleStartDrag s).position := by
  constructor <;> simp [handleStartDrag, handleDrag]

/-- C5: on every `endDrag` with screen geometry available, the stored quadrant
ends equal to the fresh classification (so it is updated exactly when the
classification changed), and a `quadrantChange` event carrying the new flags
is emitted precisely when the fresh classification differs from the
previously stored quadrant — otherwise no event is emitted. -/
theorem endDrag_emits_iff_quadrant_changed (s : OverlayState) (sw sh : Int) :
    (handleEndDrag s (some (sw, sh))).1.quadrant
        = classifyQuadrant s.position sw sh
    ∧ (handleEndDrag s (some (sw, sh))).2
        = (if classifyQuadrant s.position sw sh = s.quadrant then []
           else [OverlayEvent.quadrantChange
                  (classifyQuadrant s.position sw sh).is_right_half
                  (classifyQuadrant s.position sw sh).is_bottom_half]) := by
  refine ⟨quadrant_after_endDrag s sw sh, ?_⟩
  unfold handleEndDrag
  dsimp only
  split <;> simp_all

/-- C6: when screen geometry is unavailable (`get_screen_dimensions` returns
`None`), both geometry-dependent operations skip their update entirely: on
`endDrag` the stored quadrant and character position are untouched and no
event is emitted (only the dragging flag is cleared), and `getQuadrant`
leaves the whole state unchanged and emits nothing. -/
theorem geometry_unavailable_skips_update (s : OverlayState) :
    (handleEndDrag s none).1.quadrant = s.quadrant
    ∧ (handleEndDrag s none).1.position = s.position
    ∧ (handleEndDrag s none).2 = []
    ∧ handleGetQuadrant s none = (s, []) := by
  refine ⟨rfl, rfl, rfl, rfl⟩

/-- C7: a `drag` message received while no drag session is active is ignored
without error: state (position, drag, quadrant) is returned unchanged and no
event is emitted. -/
theorem drag_while_idle_is_noop (s : OverlayState) (ox oy : Int)
    (h : s.drag.is_dragging = false) :
    handleDrag s ox oy = (s, []) := by
  simp [handleDrag, h]

/-- Witness for `drag_while_idle_is_noop` at the initial state, which is not
dragging. -/
theorem drag_while_idle_is_noop_witness :
    initialOverlayState.drag.is_dragging = false
    ∧ handleDrag initialOverlayState 5 7 = (initialOverlayState, []) :=
  ⟨by decide, drag_while_idle_is_noop initialOverlayState 5 7 (by decide)⟩

/-- C10: a `startDrag` received while a drag session is already active is not
rejected: it overwrites the session origin with the character's current
position and leaves the state dragging, so a subsequent drag offset is
measured from the position at the most recent `startDrag`. -/
theorem startDrag_while_dragging_rebases_origin (s : OverlayState) (dx dy : Int)
    (h : s.drag.is_dragging = true) :
    (handleStartDrag s).drag
        = { start_x := s.position.x, start_y := s.position.y, is_dragging := true }
    ∧ (handleDrag (handleStartDrag s) dx dy).1.position
        = { x := s.position.x + dx, y := s.position.y + dy } := by
  exact ⟨rfl, by simp [handleStartDrag, handleDrag]⟩

/-- Witness for `startDrag_while_dragging_rebases_origin` at a concrete state
that is already mid-drag. -/
theorem startDrag_while_dragging_rebases_origin_witness :
    midDragState.drag.is_dragging = true
    ∧ ((handleStartDrag midDragState).drag
        = { start_x := midDragState.position.x
          , start_y := midDragState.position.y
          , is_dragging := true }
      ∧ (handleDrag (handleStartDrag midDragState) 3 4).1.position
        = { x := midDragState.position.x + 3
          , y := midDragState.position.y + 4 }) :=
  ⟨by decide, startDrag_while_dragging_rebases_origin midDragState 3 4 (by decide)⟩

/-- C9: while the hotkey-enabled flag is false — which is its startup value —
every IPC socket command (`toggle`, `show`, `hide`, or anything else) has no
effect: the visibility flag is unchanged and no window, renderer, or tray
action is performed. -/
theorem hotkey_disabled_ignores_ipc_commands (cmd : String)
    (isVisible hasTray : Bool) :
    processIpcCommand false hasTray cmd isVisible = (isVisible, [])
    ∧ initialHotkeyEnabled = false := by
  exact ⟨by simp [processIpcCommand], rfl⟩

/-- C8: on the backends without partial-input-region support, a
`set_input_region` call returns `Ok` while applying no partial restriction:
starting from a window that accepts input on its whole area (and, for X11,
with no XShape region installed), the call succeeds and the window still
accepts input on its whole area afterwards — the request is never converted
into whole-window click-through. -/
theorem set_input_region_is_capability_noop
    (wm : MacWindowState) (wx : X11WindowState) (x y width height : Int)
    (hm : wm.acceptsWholeWindow) (hx : wx.input_region = none) :
    (∃ wm2, macos_set_input_region wm x y width height = Except.ok wm2
        ∧ wm2.acceptsWholeWindow)
    ∧ (∃ wx2, x11_set_input_region wx x y width height = Except.ok wx2
        ∧ wx2.acceptsWholeWindow) :=
  ⟨⟨wm, rfl, hm⟩, ⟨{ wx with ignore_cursor_events := false }, rfl, rfl, hx⟩⟩

/-- Witness for `set_input_region_is_capability_noop` at concrete windows (the
X11 window even starts in click-through state) and a concrete character
rectangle. -/
theorem set_input_region_is_capability_noop_witness :
    MacWindowState.acceptsWholeWindow
        { ignores_mouse_events := false, input_region := none }
    ∧ ({ ignore_cursor_events := true, input_region := none
        : X11WindowState }).input_region = none
    ∧ ((∃ wm2, macos_set_input_region
            { ignores_mouse_events := false, input_region := none } 0 0 160 380
            = Except.ok wm2 ∧ wm2.acceptsWholeWindow)
      ∧ (∃ wx2, x11_set_input_region
            { ignore_cursor_events := true, input_region := none } 0 0 160 380
            = Except.ok wx2 ∧ wx2.acceptsWholeWindow)) :=
  ⟨⟨rfl, rfl⟩, rfl,
    set_input_region_is_capability_noop
      { ignores_mouse_events := false, input_region := none }
      { ignore_cursor_events := true, input_region := none }
      0 0 160 380 ⟨rfl, rfl⟩ rfl⟩

/-- C3: for every valid placement (nonnegative margins, window fitting inside
the screen on each axis), `rebase` is exact and reversible: the flipped
margin is exactly `screen - margin - window` with the clamp inactive, the
decoded absolute edge coordinate of the window is preserved with zero drift
on both axes, and applying `rebase` a second time, flipping back to the
original anchors with unchanged screen and window size, restores the original
placement exactly. -/
theorem rebase_exact_and_reversible (p : WindowPlacement)
    (nr nb : Bool) (sw sh ww wh : Int)
    (h1 : 0 ≤ p.margin_horizontal) (h2 : p.margin_horizontal + ww ≤ sw)
    (h3 : 0 ≤ p.margin_vertical) (h4 : p.margin_vertical + wh ≤ sh) :
    rebase (rebase p nr nb sw sh ww wh) p.anchored_right p.anchored_bottom
        sw sh ww wh = p
    ∧ anchoredEdgeCoord (rebase p nr nb sw sh ww wh).anchored_right
        (rebase p nr nb sw sh ww wh).margin_horizontal ww sw
      = anchoredEdgeCoord p.anchored_right p.margin_horizontal ww sw
    ∧ anchoredEdgeCoord (rebase p nr nb sw sh ww wh).anchored_bottom
        (rebase p nr nb sw sh ww wh).margin_vertical wh sh
      = anchoredEdgeCoord p.anchored_bottom p.margin_vertical wh sh := by
  obtain ⟨mh, mv, ar, ab⟩ := p
  simp only at h1 h2 h3 h4
  cases ar <;> cases ab <;> cases nr <;> cases nb <;>
    simp [rebase, anchoredEdgeCoord] <;> omega

/-- Witness for `rebase_exact_and_reversible` at the spec's own scenario:
screen 1920x1080, window 160x380, margins (20, 20) anchored bottom-right,
flipped to top-left and back. -/
theorem rebase_exact_and_reversible_witness :
    ((0 : Int) ≤ 20 ∧ (20 : Int) + 160 ≤ 1920
      ∧ (0 : Int) ≤ 20 ∧ (20 : Int) + 380 ≤ 1080)
    ∧ (rebase (rebase ⟨20, 20, true, true⟩ false false 1920 1080 160 380)
          true true 1920 1080 160 380 = ⟨20, 20, true, true⟩
      ∧ anchoredEdgeCoord
          (rebase ⟨20, 20, true, true⟩ false false 1920 1080 160 380).anchored_right
          (rebase ⟨20, 20, true, true⟩ false false 1920 1080 160 380).margin_horizontal
          160 1920
        = anchoredEdgeCoord true 20 160 1920
      ∧ anchoredEdgeCoord
          (rebase ⟨20, 20, true, true⟩ false false 1920 1080 160 380).anchored_bottom
          (rebase ⟨20, 20, true, true⟩ false false 1920 1080 160 380).margin_vertical
          380 1080
        = anchoredEdgeCoord true 20 380 1080) :=
  ⟨⟨by norm_num, by norm_num, by norm_num, by norm_num⟩,
    rebase_exact_and_reversible ⟨20, 20, true, true⟩ false false 1920 1080 160 380
      (by norm_num) (by norm_num) (by norm_num) (by norm_num)⟩

end DesktopWaifu
